import Mathlib

/-!
Shallow embedding of the multi-destination livestream orchestration core
(`relay_controller.ts` and the account portion of `state_manager.ts`).

Conventions of the embedding:
* module-level mutable state becomes an explicit `RelayState` record threaded
  through each operation;
* a rejected promise becomes `Except.error msg` (the thrown `Error`'s message);
* `Date` timestamps become `Nat` milliseconds, supplied as a `now` parameter at
  each call that reads the clock;
* the remote platform API clients are an explicit environment `Env` of
  per-account call tables, quantified over in the theorems;
* persistence (`saveData` on the state-manager singleton) becomes a `Store`
  record of the three keys the controller writes.
-/

namespace LiveStream

/-- `type StreamPlatform = "youtube" | "linkedin"` -/
inductive StreamPlatform where
  | youtube
  | linkedin
deriving DecidableEq

/-- `"public" | "private" | "unlisted"` visibility values. -/
inductive Visibility where
  | visPublic
  | visPrivate
  | visUnlisted
deriving DecidableEq

/-- `interface StreamDestination` from relay_controller.ts. Optional TS
properties become `Option`; an absent property is `none`. -/
structure StreamDestination where
  platform : StreamPlatform
  accountId : String
  enabled : Bool
  streamKey : Option String := none
  rtmpUrl : Option String := none
deriving DecidableEq

/-- `interface RelayConfig` from relay_controller.ts. The free-form
`customParams` record is a list of key/value pairs. -/
structure RelayConfig where
  bitrate : Nat
  resolution : String
  frameRate : Nat
  audioQuality : Nat
  encoder : String
  preset : String
  customParams : Option (List (String × String)) := none
deriving DecidableEq

/-- `interface StreamSettings` from relay_controller.ts. -/
structure StreamSettings where
  title : String
  description : String
  visibility : Visibility
  tags : Option (List String) := none
  scheduledStartTime : Option Nat := none
  scheduledEndTime : Option Nat := none
deriving DecidableEq

/-- `interface PlatformStatus` from relay_controller.ts. -/
structure PlatformStatus where
  isStreaming : Bool
  streamId : Option String := none
  viewerCount : Option Nat := none
  startedAt : Option Nat := none
  error : Option String := none
deriving DecidableEq

/-- The `platforms: { youtube?: ...; linkedin?: ... }` object of `RelayStatus`:
at most one `PlatformStatus` per platform, keyed by platform alone. -/
structure PlatformsMap where
  youtube : Option PlatformStatus := none
  linkedin : Option PlatformStatus := none
deriving DecidableEq

/-- Read the slot of one platform (`currentStatus.platforms[p]`). -/
def PlatformsMap.get (m : PlatformsMap) : StreamPlatform → Option PlatformStatus
  | .youtube => m.youtube
  | .linkedin => m.linkedin

/-- Overwrite the slot of one platform (`currentStatus.platforms[p] = v`). -/
def PlatformsMap.set (m : PlatformsMap) : StreamPlatform → PlatformStatus → PlatformsMap
  | .youtube, v => { m with youtube := some v }
  | .linkedin, v => { m with linkedin := some v }

/-- `interface RelayStatus` from relay_controller.ts. `duration` is an `Int`
because `Math.floor((end - start) / 1000)` can be negative on a clock step. -/
structure RelayStatus where
  isActive : Bool
  startedAt : Option Nat := none
  duration : Option Int := none
  bitrate : Option Nat := none
  platforms : PlatformsMap := {}
  error : Option String := none
deriving DecidableEq

/-- The three keys relay_controller.ts writes through `saveData`. -/
structure Store where
  relay_config : Option RelayConfig := none
  stream_destinations : Option (List StreamDestination) := none
  stream_status : Option RelayStatus := none
deriving DecidableEq

/-- The module-level mutable state of relay_controller.ts
(`currentConfig`, `destinations`, `currentStatus`, `_streamProcessId`),
plus the persistent store it writes through. -/
structure RelayState where
  currentConfig : Option RelayConfig := none
  destinations : List StreamDestination := []
  currentStatus : RelayStatus := { isActive := false }
  streamProcessId : Option Nat := none
  store : Store := {}
deriving DecidableEq

/-- Argument record of `ytApi.createBroadcast`. -/
structure BroadcastRequest where
  title : String
  description : String
  scheduledStartTime : Option Nat := none
  scheduledEndTime : Option Nat := none
  privacyStatus : Visibility
deriving DecidableEq

/-- Argument record of `ytApi.createStream`. -/
structure StreamRequest where
  title : String
  resolution : String
  frameRate : Nat
deriving DecidableEq

/-- Argument record of `liApi.createLiveEvent`. -/
structure LiveEventRequest where
  title : String
  description : String
  visibility : Visibility
deriving DecidableEq

/-- One YouTube API client (the result of `createYouTubeClient(accountId)`):
each remote call either succeeds with its result or rejects with a message. -/
structure YouTubeApi where
  createBroadcast : BroadcastRequest → Except String String
  createStream : StreamRequest → Except String String
  bindStreamToBroadcast : String → String → Except String Unit
  startBroadcast : String → Except String Unit
  endBroadcast : String → Except String Unit

/-- One LinkedIn API client (the result of `createLinkedInClient(accountId)`). -/
structure LinkedInApi where
  createLiveEvent : LiveEventRequest → Except String String
  startLiveEvent : String → Except String Unit
  endLiveEvent : String → Except String Unit

/-- The environment of remote collaborators: API clients per account id, and
the value `Math.floor(Math.random() * 10000)` produces for the relay pid. -/
structure Env where
  yt : String → YouTubeApi
  li : String → LinkedInApi
  randomPid : Nat

/-- Message thrown at relay_controller.ts line 186. -/
def notConfiguredMsg : String := "Relay not configured. Call configureRelay first."

/-- Message thrown at relay_controller.ts line 190. -/
def noDestinationsMsg : String := "No destinations configured. Add at least one destination."

/-- Message written by `initialize` when a persisted status was active. -/
def restartInterruptMsg : String := "Stream was interrupted due to application restart"

/-- `configureRelay(config)`: persist the config and set `currentConfig`. -/
def configureRelay (cfg : RelayConfig) (st : RelayState) : RelayState × Except String Unit :=
  ({ st with currentConfig := some cfg,
             store := { st.store with relay_config := some cfg } }, .ok ())

/-- The `{...existing, ...destination}` merge in `addDestination`: every
property present on the new record wins; properties absent from it keep the
existing record's values (only `streamKey` and `rtmpUrl` are optional). -/
def mergeDestination (old upd : StreamDestination) : StreamDestination :=
  { platform := upd.platform
    accountId := upd.accountId
    enabled := upd.enabled
    streamKey := match upd.streamKey with
      | some s => some s
      | none => old.streamKey
    rtmpUrl := match upd.rtmpUrl with
      | some s => some s
      | none => old.rtmpUrl }

/-- The `findIndex`-then-update-or-push body of `addDestination`: replace the
first record with the same (platform, accountId), else append. -/
def upsertDest : List StreamDestination → StreamDestination → List StreamDestination
  | [], d => [d]
  | e :: rest, d =>
    if e.platform = d.platform ∧ e.accountId = d.accountId then
      mergeDestination e d :: rest
    else
      e :: upsertDest rest d

/-- `addDestination(destination)`: upsert by identity, then persist the list. -/
def addDestination (d : StreamDestination) (st : RelayState) : RelayState × Except String Unit :=
  let ds := upsertDest st.destinations d
  ({ st with destinations := ds,
             store := { st.store with stream_destinations := some ds } }, .ok ())

/-- Truthiness of an optional string (`if (x?.streamId)`): present and
non-empty. -/
def truthyStr : Option String → Bool
  | some s => !s.isEmpty
  | none => false

/-- `stopPlatformStream(platform, accountId?)` from relay_controller.ts:
if that platform's status entry is streaming, look up a matching destination
(throwing "not found" when none matches), end the remote broadcast when a
truthy streamId is recorded, and reset the slot to `{isStreaming: false}`. -/
def stopPlatformStream (env : Env) (platform : StreamPlatform) (accountId : Option String)
    (st : RelayState) : RelayState × Except String Unit :=
  match platform with
  | .youtube =>
    match st.currentStatus.platforms.youtube with
    | some ps =>
      if ps.isStreaming then
        match st.destinations.find? (fun d =>
            d.platform == StreamPlatform.youtube &&
            (match accountId with | some a => d.accountId == a | none => true)) with
        | none =>
          (st, .error ("YouTube destination not found for account " ++ accountId.getD "any"))
        | some dest =>
          let api := env.yt dest.accountId
          let afterEnd : Except String Unit :=
            if truthyStr ps.streamId then api.endBroadcast (ps.streamId.getD "") else .ok ()
          match afterEnd with
          | .error e => (st, .error e)
          | .ok _ =>
            ({ st with currentStatus := { st.currentStatus with
                platforms := st.currentStatus.platforms.set .youtube { isStreaming := false } } },
             .ok ())
      else (st, .ok ())
    | none => (st, .ok ())
  | .linkedin =>
    match st.currentStatus.platforms.linkedin with
    | some ps =>
      if ps.isStreaming then
        match st.destinations.find? (fun d =>
            d.platform == StreamPlatform.linkedin &&
            (match accountId with | some a => d.accountId == a | none => true)) with
        | none =>
          (st, .error ("LinkedIn destination not found for account " ++ accountId.getD "any"))
        | some dest =>
          let api := env.li dest.accountId
          let afterEnd : Except String Unit :=
            if truthyStr ps.streamId then api.endLiveEvent (ps.streamId.getD "") else .ok ()
          match afterEnd with
          | .error e => (st, .error e)
          | .ok _ =>
            ({ st with currentStatus := { st.currentStatus with
                platforms := st.currentStatus.platforms.set .linkedin { isStreaming := false } } },
             .ok ())
      else (st, .ok ())
    | none => (st, .ok ())

/-- `removeDestination(platform, accountId)`: filter the registry, persist it,
and — when the overall stream is active, the platform has a status entry and
it records a truthy streamId — call `stopPlatformStream` (over the already
filtered registry, as the source does). -/
def removeDestination (env : Env) (platform : StreamPlatform) (accountId : String)
    (st : RelayState) : RelayState × Except String Unit :=
  let ds := st.destinations.filter (fun d =>
    !(d.platform == platform && d.accountId == accountId))
  let st1 : RelayState :=
    { st with destinations := ds,
              store := { st.store with stream_destinations := some ds } }
  if st1.currentStatus.isActive ∧ (st1.currentStatus.platforms.get platform).isSome then
    match platform with
    | .youtube =>
      if truthyStr (st1.currentStatus.platforms.youtube.bind (·.streamId)) then
        stopPlatformStream env .youtube (some accountId) st1
      else (st1, .ok ())
    | .linkedin =>
      if truthyStr (st1.currentStatus.platforms.linkedin.bind (·.streamId)) then
        stopPlatformStream env .linkedin (some accountId) st1
      else (st1, .ok ())
  else (st1, .ok ())

/-- The chain of awaited remote calls in `startYouTubeStream`: create
broadcast, create stream (falling back to "720p"/30 when the config is absent
or its field falsy), bind, start. The first rejection propagates; success
yields the broadcast id recorded as `streamId`. -/
def ytSeq (api : YouTubeApi) (cfg : Option RelayConfig) (s : StreamSettings) :
    Except String String :=
  match api.createBroadcast
      { title := s.title, description := s.description,
        scheduledStartTime := s.scheduledStartTime,
        scheduledEndTime := s.scheduledEndTime,
        privacyStatus := s.visibility } with
  | .error e => .error e
  | .ok bid =>
    match api.createStream
        { title := s.title,
          resolution := match cfg with
            | some c => if c.resolution.isEmpty then "720p" else c.resolution
            | none => "720p",
          frameRate := match cfg with
            | some c => if c.frameRate = 0 then 30 else c.frameRate
            | none => 30 } with
    | .error e => .error e
    | .ok sid =>
      match api.bindStreamToBroadcast bid sid with
      | .error e => .error e
      | .ok _ =>
        match api.startBroadcast bid with
        | .error e => .error e
        | .ok _ => .ok bid

/-- The `PlatformStatus` entry `startYouTubeStream` writes for YouTube
together with the call's outcome: a live entry on success, and
`{isStreaming: false, error}` on rejection (written identically by the inner
catch and re-written by `startStream`'s catch). -/
def ytStart (api : YouTubeApi) (cfg : Option RelayConfig) (now : Nat)
    (s : StreamSettings) : PlatformStatus × Except String Unit :=
  match ytSeq api cfg s with
  | .error e => ({ isStreaming := false, error := some e }, .error e)
  | .ok bid => ({ isStreaming := true, streamId := some bid, startedAt := some now }, .ok ())

/-- `startYouTubeStream(destination, settings)`: run the sequence and write
the resulting entry into the YouTube slot of the status. -/
def startYouTubeStream (api : YouTubeApi) (cfg : Option RelayConfig) (now : Nat)
    (s : StreamSettings) (status : RelayStatus) : RelayStatus × Except String Unit :=
  let r := ytStart api cfg now s
  ({ status with platforms := status.platforms.set .youtube r.1 }, r.2)

/-- The chain of awaited remote calls in `startLinkedInStream`: create the
live event, start it; success yields the event id recorded as `streamId`. -/
def liSeq (api : LinkedInApi) (s : StreamSettings) : Except String String :=
  match api.createLiveEvent
      { title := s.title, description := s.description, visibility := s.visibility } with
  | .error e => .error e
  | .ok eid =>
    match api.startLiveEvent eid with
    | .error e => .error e
    | .ok _ => .ok eid

/-- The `PlatformStatus` entry `startLinkedInStream` writes for LinkedIn
together with the call's outcome. -/
def liStart (api : LinkedInApi) (now : Nat) (s : StreamSettings) :
    PlatformStatus × Except String Unit :=
  match liSeq api s with
  | .error e => ({ isStreaming := false, error := some e }, .error e)
  | .ok eid => ({ isStreaming := true, streamId := some eid, startedAt := some now }, .ok ())

/-- `startLinkedInStream(destination, settings)`: run the sequence and write
the resulting entry into the LinkedIn slot of the status. -/
def startLinkedInStream (api : LinkedInApi) (now : Nat) (s : StreamSettings)
    (status : RelayStatus) : RelayStatus × Except String Unit :=
  let r := liStart api now s
  ({ status with platforms := status.platforms.set .linkedin r.1 }, r.2)

/-- The entry one destination's start attempt produces, by platform. -/
def destEntry (env : Env) (cfg : Option RelayConfig) (now : Nat) (s : StreamSettings)
    (d : StreamDestination) : PlatformStatus × Except String Unit :=
  match d.platform with
  | .youtube => ytStart (env.yt d.accountId) cfg now s
  | .linkedin => liStart (env.li d.accountId) now s

/-- One iteration of the `for (const destination of enabledDestinations)` loop
in `startStream`: dispatch on platform; the surrounding `catch` records a
rejection as `{isStreaming: false, error}` in that platform's slot. -/
def startLoopStep (env : Env) (cfg : Option RelayConfig) (now : Nat) (s : StreamSettings)
    (status : RelayStatus) (d : StreamDestination) : RelayStatus :=
  let r : RelayStatus × Except String Unit :=
    match d.platform with
    | .youtube => startYouTubeStream (env.yt d.accountId) cfg now s status
    | .linkedin => startLinkedInStream (env.li d.accountId) now s status
  match r.2 with
  | .ok _ => r.1
  | .error e =>
    let fail : PlatformStatus := { isStreaming := false, error := some e }
    { r.1 with platforms := r.1.platforms.set d.platform fail }

/-- The whole loop, sequentially in list order. -/
def startLoop (env : Env) (cfg : Option RelayConfig) (now : Nat) (s : StreamSettings)
    (ds : List StreamDestination) (status : RelayStatus) : RelayStatus :=
  ds.foldl (startLoopStep env cfg now s) status

/-- `startStream(settings)`: resolve silently when already active; throw
`NotConfigured` / `NoDestinations` (the catch writes the message into the
status's top-level `error` and re-sets `isActive = false`); otherwise reset
the status to active with a fresh `startedAt`, run the loop over the enabled
destinations in registry order, record the relay pid, and persist. -/
def startStream (env : Env) (now : Nat) (s : StreamSettings) (st : RelayState) :
    RelayState × Except String Unit :=
  if st.currentStatus.isActive then (st, .ok ())
  else
    match st.currentConfig with
    | none =>
      ({ st with currentStatus := { st.currentStatus with
           isActive := false, error := some notConfiguredMsg } },
       .error notConfiguredMsg)
    | some _ =>
      if st.destinations.length = 0 then
        ({ st with currentStatus := { st.currentStatus with
             isActive := false, error := some noDestinationsMsg } },
         .error noDestinationsMsg)
      else
        let status0 : RelayStatus := { isActive := true, startedAt := some now, platforms := {} }
        let enabled := st.destinations.filter (fun d => d.enabled)
        let status1 := startLoop env st.currentConfig now s enabled status0
        ({ st with currentStatus := status1,
                   streamProcessId := some env.randomPid,
                   store := { st.store with stream_status := some status1 } },
         .ok ())

/-- One guarded per-platform stop inside `stopStream`:
`if (currentStatus.platforms[p]?.isStreaming) await stopPlatformStream(p)`. -/
def stopPhase (env : Env) (p : StreamPlatform) (st : RelayState) :
    RelayState × Except String Unit :=
  if ((st.currentStatus.platforms.get p).map (·.isStreaming)).getD false then
    stopPlatformStream env p none st
  else (st, .ok ())

/-- `stopStream()`: resolve silently when inactive; stop YouTube then LinkedIn
(each only when marked streaming). A rejection from either stop propagates out
of the single surrounding try/catch, aborting the rest. When both phases
resolve, flip `isActive` off, clear the pid, compute
`duration = Math.floor((now - startedAt) / 1000)` when `startedAt` is set,
and persist. -/
def stopStream (env : Env) (now : Nat) (st : RelayState) : RelayState × Except String Unit :=
  if st.currentStatus.isActive then
    match stopPhase env .youtube st with
    | (st1, .error e) => (st1, .error e)
    | (st1, .ok _) =>
      match stopPhase env .linkedin st1 with
      | (st2, .error e) => (st2, .error e)
      | (st2, .ok _) =>
        let dur : Option Int :=
          match st2.currentStatus.startedAt with
          | some t0 => some (Int.fdiv ((now : Int) - (t0 : Int)) 1000)
          | none => st2.currentStatus.duration
        let status2 : RelayStatus :=
          { st2.currentStatus with isActive := false, duration := dur }
        ({ st2 with currentStatus := status2,
                    streamProcessId := none,
                    store := { st2.store with stream_status := some status2 } },
         .ok ())
  else (st, .ok ())

/-- `getRelayStatus()`: a copy of the current aggregate status. -/
def getRelayStatus (st : RelayState) : RelayStatus := st.currentStatus

/-- The module's `initialize()` (renamed: `initialize` is reserved in Lean):
adopt persisted config, destinations and status; a persisted status with
`isActive = true` is forced inactive with the restart-interruption error and
the correction is persisted before anything else runs. -/
def initRelayController (store : Store) : RelayState :=
  let cfg := store.relay_config
  let ds := (store.stream_destinations).getD []
  match store.stream_status with
  | none =>
    { currentConfig := cfg, destinations := ds,
      currentStatus := { isActive := false, platforms := {} },
      streamProcessId := none, store := store }
  | some s =>
    if s.isActive then
      let s2 : RelayStatus := { s with isActive := false, error := some restartInterruptMsg }
      { currentConfig := cfg, destinations := ds, currentStatus := s2,
        streamProcessId := none,
        store := { store with stream_status := some s2 } }
    else
      { currentConfig := cfg, destinations := ds, currentStatus := s,
        streamProcessId := none, store := store }

/-! ### StateManager (state_manager.ts): accounts, KV store and read cache

`generateCacheKey` is `JSON.stringify` of the key-part array; all key parts in
the account paths are strings and the encoding is injective on them, so cache
keys are modelled structurally as the `List String` of key parts. Iteration
order of `kv.list` is abstracted as the stored order of the kv list. -/

/-- The string a `StreamPlatform` carries in KV keys. -/
def StreamPlatform.str : StreamPlatform → String
  | .youtube => "youtube"
  | .linkedin => "linkedin"

/-- `interface Account` from state_manager.ts (the free-form `profile` object
is a list of key/value pairs). -/
structure Account where
  id : String
  platform : StreamPlatform
  accessToken : String
  refreshToken : String
  expiresAt : Nat
  profile : Option (List (String × String)) := none
deriving DecidableEq

/-- A value held in the StateManager read cache on the account paths: either
one account (get-by-key) or a list (aggregate/list reads). -/
inductive CacheVal where
  | one (a : Account)
  | many (l : List Account)
deriving DecidableEq

/-- Update-or-append on an association list, preserving entry order
(`Map.set` / `kv.set`). -/
def setKey {α : Type} : List (List String × α) → List String → α → List (List String × α)
  | [], k, v => [(k, v)]
  | (k0, v0) :: rest, k, v =>
    if k0 = k then (k0, v) :: rest else (k0, v0) :: setKey rest k v

/-- Remove a key from an association list (`Map.delete` / `kv.delete`). -/
def eraseKey {α : Type} (l : List (List String × α)) (k : List String) :
    List (List String × α) :=
  l.filter (fun e => !(e.1 == k))

/-- First value stored under a key, if any (`Map.get`). -/
def lookupKey {α : Type} (l : List (List String × α)) (k : List String) : Option α :=
  (l.find? (fun e => e.1 == k)).map (·.2)

/-- Does the key `k` extend the key-part list `pre` (`kv.list({prefix})`)? -/
def keyExtends (pre : List String) (k : List String) : Bool :=
  match pre, k with
  | [], _ => true
  | p :: ps, k0 :: ks => p == k0 && keyExtends ps ks
  | _ :: _, [] => false

/-- The KV store (restricted to the accounts namespace, the only part the
account operations touch) together with the in-process cache and its expiry
map. -/
structure StateManager where
  kv : List (List String × Account) := []
  cache : List (List String × CacheVal) := []
  cacheExpiry : List (List String × Nat) := []
deriving DecidableEq

/-- `DEFAULT_CACHE_TTL = 5 * 60 * 1000` milliseconds. -/
def DEFAULT_CACHE_TTL : Nat := 5 * 60 * 1000

/-- The `["accounts"]` key root (`ACCOUNTS` key namespace). -/
def accountsRoot : List String := ["accounts"]

/-- `getCachedValue(key)`: return the cached value while `expiry > now`
(`expiry &&` requires a truthy, i.e. nonzero, expiry); a stale nonzero expiry
deletes the entry; returns nothing otherwise. -/
def getCachedValue (sm : StateManager) (key : List String) (now : Nat) :
    Option CacheVal × StateManager :=
  match lookupKey sm.cacheExpiry key with
  | some expiry =>
    if expiry ≠ 0 ∧ now < expiry then (lookupKey sm.cache key, sm)
    else if expiry ≠ 0 then
      (none, { sm with cache := eraseKey sm.cache key,
                       cacheExpiry := eraseKey sm.cacheExpiry key })
    else (none, sm)
  | none => (none, sm)

/-- `setCachedValue(key, value, ttl)`. -/
def setCachedValue (sm : StateManager) (key : List String) (v : CacheVal)
    (now : Nat) (ttl : Nat) : StateManager :=
  { sm with cache := setKey sm.cache key v,
            cacheExpiry := setKey sm.cacheExpiry key (now + ttl) }

/-- `clearCacheKey(key)`: drop the value and its expiry. -/
def clearCacheKey (sm : StateManager) (key : List String) : StateManager :=
  { sm with cache := eraseKey sm.cache key,
            cacheExpiry := eraseKey sm.cacheExpiry key }

/-- The KV key of one account: `["accounts", platform, id]`. -/
def accountKey (a : Account) : List String :=
  accountsRoot ++ [a.platform.str, a.id]

/-- `saveAccount(account)`: durable write, then invalidate the account's own
cache key and the `["accounts"]` aggregate key — and only those two. -/
def saveAccount (sm : StateManager) (a : Account) : StateManager :=
  let key := accountKey a
  let sm1 := { sm with kv := setKey sm.kv key a }
  clearCacheKey (clearCacheKey sm1 key) accountsRoot

/-- `deleteAccount(platform, id)`: durable delete, then invalidate the
account's own key, the `["accounts"]` aggregate key and the per-platform
`["accounts", platform]` list key. -/
def deleteAccount (sm : StateManager) (platform : StreamPlatform) (id : String) :
    StateManager :=
  let key := accountsRoot ++ [platform.str, id]
  let sm1 := { sm with kv := eraseKey sm.kv key }
  clearCacheKey (clearCacheKey (clearCacheKey sm1 key) accountsRoot)
    (accountsRoot ++ [platform.str])

/-- `getAccount(platform, id)`: cache-first; on a miss read the KV store and
repopulate with the default TTL. (The source returns the cached value through
an unchecked cast; under the reachable-state invariant an account key only
ever caches a single account, so a cached list is treated as a miss.) -/
def getAccount (sm : StateManager) (platform : StreamPlatform) (id : String)
    (now : Nat) : Option Account × StateManager :=
  let key := accountsRoot ++ [platform.str, id]
  let r := getCachedValue sm key now
  match r.1 with
  | some (.one a) => (some a, r.2)
  | _ =>
    match lookupKey r.2.kv key with
    | some a => (some a, setCachedValue r.2 key (.one a) now DEFAULT_CACHE_TTL)
    | none => (none, r.2)

/-- `getAccountsByPlatform(platform)`: cache-first on the
`["accounts", platform]` list key; on a miss list the KV entries under that
key and repopulate. -/
def getAccountsByPlatform (sm : StateManager) (platform : StreamPlatform)
    (now : Nat) : List Account × StateManager :=
  let key := accountsRoot ++ [platform.str]
  let r := getCachedValue sm key now
  match r.1 with
  | some (.many l) => (l, r.2)
  | _ =>
    let accounts := (r.2.kv.filter (fun e => keyExtends key e.1)).map (·.2)
    (accounts, setCachedValue r.2 key (.many accounts) now DEFAULT_CACHE_TTL)

/-- `getAllAccounts()`: cache-first on the `["accounts"]` aggregate key; on a
miss list every KV entry under it and repopulate. -/
def getAllAccounts (sm : StateManager) (now : Nat) : List Account × StateManager :=
  let r := getCachedValue sm accountsRoot now
  match r.1 with
  | some (.many l) => (l, r.2)
  | _ =>
    let accounts := (r.2.kv.filter (fun e => keyExtends accountsRoot e.1)).map (·.2)
    (accounts, setCachedValue r.2 accountsRoot (.many accounts) now DEFAULT_CACHE_TTL)

/-! ### Concrete instances used as witnesses and counterexamples -/

/-- A sample relay configuration (the spec's example scenario values). -/
def cfgW : RelayConfig :=
  { bitrate := 2500, resolution := "720p", frameRate := 30,
    audioQuality := 128, encoder := "x264", preset := "veryfast" }

/-- Sample stream settings. -/
def settingsW : StreamSettings :=
  { title := "T", description := "D", visibility := .visPublic }

/-- A YouTube client whose calls all succeed. -/
def ytApiOk : YouTubeApi :=
  { createBroadcast := fun _ => .ok "yt-b1"
    createStream := fun _ => .ok "yt-s1"
    bindStreamToBroadcast := fun _ _ => .ok ()
    startBroadcast := fun _ => .ok ()
    endBroadcast := fun _ => .ok () }

/-- A YouTube client whose `createBroadcast` is rejected. -/
def ytApiFail : YouTubeApi :=
  { ytApiOk with createBroadcast := fun _ => .error "YouTube API rejected createBroadcast" }

/-- A LinkedIn client whose calls all succeed. -/
def liApiOk : LinkedInApi :=
  { createLiveEvent := fun _ => .ok "li-e1"
    startLiveEvent := fun _ => .ok ()
    endLiveEvent := fun _ => .ok () }

/-- A LinkedIn client whose `createLiveEvent` is rejected. -/
def liApiFail : LinkedInApi :=
  { liApiOk with createLiveEvent := fun _ => .error "LinkedIn API rejected createLiveEvent" }

/-- Environment: YouTube succeeds, LinkedIn fails. -/
def envW : Env := { yt := fun _ => ytApiOk, li := fun _ => liApiFail, randomPid := 7 }

/-- Environment: everything succeeds. -/
def envAllOk : Env := { yt := fun _ => ytApiOk, li := fun _ => liApiOk, randomPid := 3 }

/-- Environment: starts succeed for account "acc1" only, on either platform. -/
def envMixed : Env :=
  { yt := fun a => if a = "acc1" then ytApiOk else ytApiFail
    li := fun _ => liApiOk, randomPid := 9 }

/-- Environment: ending the YouTube broadcast fails, everything else works. -/
def envYtStopFail : Env :=
  { yt := fun _ => { ytApiOk with endBroadcast := fun _ => .error "network down" }
    li := fun _ => liApiOk, randomPid := 5 }

/-- An enabled YouTube destination. -/
def dYt : StreamDestination := { platform := .youtube, accountId := "acc1", enabled := true }

/-- An enabled LinkedIn destination. -/
def dLi : StreamDestination := { platform := .linkedin, accountId := "acc2", enabled := true }

/-- A disabled YouTube destination. -/
def dYtOff : StreamDestination := { platform := .youtube, accountId := "acc1", enabled := false }

/-- An enabled YouTube destination carrying a stream key. -/
def dYtK : StreamDestination :=
  { platform := .youtube, accountId := "acc1", enabled := true, streamKey := some "k1" }

/-- A second enabled YouTube destination under another account. -/
def dYt2 : StreamDestination := { platform := .youtube, accountId := "acc2", enabled := true }

/-- Configured state whose only destination is disabled. -/
def stC2 : RelayState := { currentConfig := some cfgW, destinations := [dYtOff] }

/-- Configured state with a LinkedIn and a YouTube destination (LinkedIn
first in registry order). -/
def stC1 : RelayState := { currentConfig := some cfgW, destinations := [dLi, dYt] }

/-- Configured state with two YouTube destinations under different accounts. -/
def stC9 : RelayState := { currentConfig := some cfgW, destinations := [dYt, dYt2] }

/-- Unconfigured state with one destination. -/
def stNoCfg : RelayState := { destinations := [dYt] }

/-- A streaming YouTube status entry. -/
def psYt : PlatformStatus := { isStreaming := true, streamId := some "yt-b1" }

/-- A streaming LinkedIn status entry. -/
def psLi : PlatformStatus := { isStreaming := true, streamId := some "li-e1" }

/-- The aggregate status mid-stream: both platforms live since t = 1000 ms. -/
def statusBothLive : RelayStatus :=
  { isActive := true, startedAt := some 1000,
    platforms := { youtube := some psYt, linkedin := some psLi } }

/-- A state mid-stream: both platforms live since t = 1000 ms. -/
def stActive : RelayState :=
  { currentConfig := some cfgW, destinations := [dYt, dLi],
    currentStatus := statusBothLive }

/-- `stActive` after its YouTube platform has been stopped. -/
def stActiveY : RelayState :=
  { stActive with currentStatus := { stActive.currentStatus with
      platforms := stActive.currentStatus.platforms.set .youtube { isStreaming := false } } }

/-- `stActiveY` after its LinkedIn platform has been stopped as well. -/
def stActiveYL : RelayState :=
  { stActiveY with currentStatus := { stActiveY.currentStatus with
      platforms := stActiveY.currentStatus.platforms.set .linkedin { isStreaming := false } } }

/-- A persisted status that was left active (as after an unclean shutdown). -/
def statusActiveW : RelayStatus := { isActive := true, startedAt := some 5, platforms := {} }

/-- A store holding `statusActiveW`. -/
def storeActiveW : Store := { stream_status := some statusActiveW }

/-- A YouTube account with its original token. -/
def accA : Account :=
  { id := "a1", platform := .youtube, accessToken := "tok-old",
    refreshToken := "r1", expiresAt := 100 }

/-- The same account identity with a refreshed access token. -/
def accA2 : Account := { accA with accessToken := "tok-new" }

/-- A StateManager whose KV store holds `accA` and whose cache is empty. -/
def smC7 : StateManager := { kv := [(accountKey accA, accA)] }

/-! ### Helper lemmas -/

theorem PlatformsMap.get_set_same (m : PlatformsMap) (p : StreamPlatform) (v : PlatformStatus) :
    (m.set p v).get p = some v := by
  cases p <;> rfl

theorem PlatformsMap.get_set_ne (m : PlatformsMap) (p q : StreamPlatform) (v : PlatformStatus)
    (h : p ≠ q) : (m.set p v).get q = m.get q := by
  cases p <;> cases q <;> simp_all [PlatformsMap.set, PlatformsMap.get]

theorem PlatformsMap.set_set_same (m : PlatformsMap) (p : StreamPlatform)
    (v w : PlatformStatus) : (m.set p v).set p w = m.set p w := by
  cases p <;> rfl

theorem ytStart_of_error (api : YouTubeApi) (cfg : Option RelayConfig) (now : Nat)
    (s : StreamSettings) (e : String) (h : (ytStart api cfg now s).2 = .error e) :
    (ytStart api cfg now s).1 = { isStreaming := false, error := some e } := by
  unfold ytStart at h ⊢
  cases hseq : ytSeq api cfg s <;> simp [hseq] at h ⊢
  exact h

theorem ytStart_of_ok (api : YouTubeApi) (cfg : Option RelayConfig) (now : Nat)
    (s : StreamSettings) (h : (ytStart api cfg now s).2 = .ok ()) :
    (ytStart api cfg now s).1.isStreaming = true := by
  unfold ytStart at h ⊢
  cases hseq : ytSeq api cfg s <;> simp [hseq] at h ⊢

theorem liStart_of_error (api : LinkedInApi) (now : Nat) (s : StreamSettings) (e : String)
    (h : (liStart api now s).2 = .error e) :
    (liStart api now s).1 = { isStreaming := false, error := some e } := by
  unfold liStart at h ⊢
  cases hseq : liSeq api s <;> simp [hseq] at h ⊢
  exact h

theorem liStart_of_ok (api : LinkedInApi) (now : Nat) (s : StreamSettings)
    (h : (liStart api now s).2 = .ok ()) : (liStart api now s).1.isStreaming = true := by
  unfold liStart at h ⊢
  cases hseq : liSeq api s <;> simp [hseq] at h ⊢

theorem destEntry_of_error (env : Env) (cfg : Option RelayConfig) (now : Nat)
    (s : StreamSettings) (d : StreamDestination) (e : String)
    (h : (destEntry env cfg now s d).2 = .error e) :
    (destEntry env cfg now s d).1 = { isStreaming := false, error := some e } := by
  unfold destEntry at h ⊢
  cases hd : d.platform <;> rw [hd] at h
  · exact ytStart_of_error _ _ _ _ _ h
  · exact liStart_of_error _ _ _ _ h

theorem destEntry_of_ok (env : Env) (cfg : Option RelayConfig) (now : Nat)
    (s : StreamSettings) (d : StreamDestination)
    (h : (destEntry env cfg now s d).2 = .ok ()) :
    (destEntry env cfg now s d).1.isStreaming = true := by
  unfold destEntry at h ⊢
  cases hd : d.platform <;> rw [hd] at h
  · exact ytStart_of_ok _ _ _ _ h
  · exact liStart_of_ok _ _ _ h

/-- One loop iteration of `startStream` writes exactly the destination's entry
into its platform's slot and changes nothing else of the status. -/
theorem startLoopStep_eq (env : Env) (cfg : Option RelayConfig) (now : Nat)
    (s : StreamSettings) (status : RelayStatus) (d : StreamDestination) :
    startLoopStep env cfg now s status d =
      { status with platforms := status.platforms.set d.platform (destEntry env cfg now s d).1 } := by
  unfold startLoopStep startYouTubeStream startLinkedInStream destEntry
  cases hd : d.platform
  · cases hr : (ytStart (env.yt d.accountId) cfg now s).2 with
    | ok u => cases u; simp [hr]
    | error e =>
      simp [hr, PlatformsMap.set_set_same, ytStart_of_error _ _ _ _ _ hr]
  · cases hr : (liStart (env.li d.accountId) now s).2 with
    | ok u => cases u; simp [hr]
    | error e =>
      simp [hr, PlatformsMap.set_set_same, liStart_of_error _ _ _ _ hr]

theorem startLoop_nil (env : Env) (cfg : Option RelayConfig) (now : Nat)
    (s : StreamSettings) (status : RelayStatus) :
    startLoop env cfg now s [] status = status := rfl

theorem startLoop_cons (env : Env) (cfg : Option RelayConfig) (now : Nat)
    (s : StreamSettings) (d : StreamDestination) (ds : List StreamDestination)
    (status : RelayStatus) :
    startLoop env cfg now s (d :: ds) status =
      startLoop env cfg now s ds (startLoopStep env cfg now s status d) := rfl

/-- The accepted path of `startStream` (active check passed, config present,
registry non-empty): run the loop over the enabled destinations starting from
a fresh active status, record the pid, persist. -/
theorem startStream_accepted (env : Env) (now : Nat) (s : StreamSettings)
    (st : RelayState) (cfg : RelayConfig)
    (hAct : st.currentStatus.isActive = false)
    (hCfg : st.currentConfig = some cfg)
    (hNe : st.destinations ≠ []) :
    startStream env now s st =
      (({ st with
          currentStatus := startLoop env st.currentConfig now s
            (st.destinations.filter (fun d => d.enabled))
            { isActive := true, startedAt := some now, platforms := {} },
          streamProcessId := some env.randomPid,
          store := { st.store with stream_status := some (startLoop env st.currentConfig now s
            (st.destinations.filter (fun d => d.enabled))
            { isActive := true, startedAt := some now, platforms := {} }) } } : RelayState),
       .ok ()) := by
  have hlen : ¬(st.destinations.length = 0) := by
    simpa [List.length_eq_zero] using hNe
  unfold startStream
  rw [hCfg]
  simp [hAct, hlen]

/-! ### Claim theorems -/

/-- C4: on startup, a persisted `RelayStatus` found with `isActive = true` is
adopted with `isActive` forced to false and the top-level error set to
"Stream was interrupted due to application restart", and the corrected status
is persisted; a persisted status with `isActive = false` is adopted unchanged
(and nothing is written back). -/
theorem claim_C4_restart_recovery (store : Store) (s : RelayStatus)
    (h : store.stream_status = some s) :
    (s.isActive = true →
      (initRelayController store).currentStatus =
        { s with isActive := false, error := some restartInterruptMsg } ∧
      (initRelayController store).store.stream_status =
        some { s with isActive := false, error := some restartInterruptMsg }) ∧
    (s.isActive = false →
      (initRelayController store).currentStatus = s ∧
      (initRelayController store).store = store) := by
  unfold initRelayController
  rw [h]
  constructor
  · intro hA
    simp [hA]
  · intro hA
    simp [hA]

/-- C4 witness: a store persisted with an active status is recovered inactive
with the interruption error, and the correction is written back. -/
theorem claim_C4_witness :
    (initRelayController storeActiveW).currentStatus =
      { statusActiveW with isActive := false, error := some restartInterruptMsg } ∧
    (initRelayController storeActiveW).store.stream_status =
      some { statusActiveW with isActive := false, error := some restartInterruptMsg } :=
  (claim_C4_restart_recovery storeActiveW statusActiveW rfl).1 rfl

/-- C8: `startStream` with no `RelayConfig` set (and the stream not already
active) is rejected with the NotConfigured error; the status keeps its
platform entries untouched (no platform start is attempted) and `isActive`
remains false, with the rejection message written into the top-level error. -/
theorem claim_C8_not_configured (env : Env) (now : Nat) (s : StreamSettings)
    (st : RelayState)
    (hAct : st.currentStatus.isActive = false)
    (hCfg : st.currentConfig = none) :
    startStream env now s st =
      ({ st with currentStatus := { st.currentStatus with
           isActive := false, error := some notConfiguredMsg } }, .error notConfiguredMsg) ∧
    (startStream env now s st).1.currentStatus.isActive = false ∧
    (startStream env now s st).1.currentStatus.platforms = st.currentStatus.platforms := by
  have h1 : startStream env now s st =
      ({ st with currentStatus := { st.currentStatus with
           isActive := false, error := some notConfiguredMsg } }, .error notConfiguredMsg) := by
    unfold startStream
    rw [hCfg]
    simp [hAct]
  refine ⟨h1, ?_, ?_⟩ <;> rw [h1]

/-- C8 witness: on a fresh state holding one destination but no config,
`startStream` rejects with NotConfigured and attempts nothing. -/
theorem claim_C8_witness :
    startStream envW 5 settingsW stNoCfg =
      ({ stNoCfg with currentStatus := { stNoCfg.currentStatus with
           isActive := false, error := some notConfiguredMsg } }, .error notConfiguredMsg) ∧
    (startStream envW 5 settingsW stNoCfg).1.currentStatus.isActive = false ∧
    (startStream envW 5 settingsW stNoCfg).1.currentStatus.platforms =
      stNoCfg.currentStatus.platforms :=
  claim_C8_not_configured envW 5 settingsW stNoCfg rfl rfl

/-- C10: a `startStream` rejected by a precondition check (no config, or empty
destination list) overwrites the status's top-level error with the rejection
message while `isActive` stays false, so a subsequent `getRelayStatus` reports
exactly the pre-call status with only those two fields touched. -/
theorem claim_C10_rejection_writes_error (env : Env) (now : Nat) (s : StreamSettings)
    (st : RelayState)
    (hAct : st.currentStatus.isActive = false) :
    (st.currentConfig = none →
      getRelayStatus (startStream env now s st).1 =
        { st.currentStatus with isActive := false, error := some notConfiguredMsg } ∧
      (startStream env now s st).2 = .error notConfiguredMsg) ∧
    (∀ cfg, st.currentConfig = some cfg → st.destinations = [] →
      getRelayStatus (startStream env now s st).1 =
        { st.currentStatus with isActive := false, error := some noDestinationsMsg } ∧
      (startStream env now s st).2 = .error noDestinationsMsg) := by
  constructor
  · intro hCfg
    unfold startStream getRelayStatus
    rw [hCfg]
    simp [hAct]
  · intro cfg hCfg hDst
    unfold startStream getRelayStatus
    rw [hCfg]
    simp [hAct, hDst]

/-- C10 witness: the unconfigured rejection leaves `isActive = false` and its
message readable through `getRelayStatus`. -/
theorem claim_C10_witness :
    getRelayStatus (startStream envW 5 settingsW stNoCfg).1 =
      { stNoCfg.currentStatus with isActive := false, error := some notConfiguredMsg } ∧
    (startStream envW 5 settingsW stNoCfg).2 = .error notConfiguredMsg :=
  (claim_C10_rejection_writes_error envW 5 settingsW stNoCfg rfl).1 rfl

/-- `upsertDest` on a list holding no record with the new destination's
identity appends it. -/
theorem upsertDest_fresh (l : List StreamDestination) (d : StreamDestination)
    (h : ∀ e ∈ l, ¬(e.platform = d.platform ∧ e.accountId = d.accountId)) :
    upsertDest l d = l ++ [d] := by
  induction l with
  | nil => rfl
  | cons e rest ih =>
    simp only [upsertDest]
    rw [if_neg (h e (by simp)), ih (fun x hx => h x (by simp [hx]))]
    rfl

/-- `upsertDest` on a list whose only record with the destination's identity
sits at the end merges into that record in place. -/
theorem upsertDest_found (l : List StreamDestination) (d0 d : StreamDestination)
    (h : ∀ e ∈ l, ¬(e.platform = d.platform ∧ e.accountId = d.accountId))
    (hp : d0.platform = d.platform) (ha : d0.accountId = d.accountId) :
    upsertDest (l ++ [d0]) d = l ++ [mergeDestination d0 d] := by
  induction l with
  | nil =>
    simp only [List.nil_append, upsertDest]
    rw [if_pos ⟨hp, ha⟩]
  | cons e rest ih =>
    simp only [List.cons_append, upsertDest]
    rw [if_neg (h e (by simp))]
    show e :: upsertDest (rest ++ [d0]) d = _
    rw [ih (fun x hx => h x (by simp [hx]))]

/-- C2 counterexample: with one destination present but disabled (so the
enabled-destination set is empty), `startStream` is NOT rejected: it returns
without error and leaves `isActive = true`, contrary to the claimed
NoDestinations rejection. -/
theorem claim_C2_counterexample :
    (startStream envW 5 settingsW stC2).2 = .ok () ∧
    (startStream envW 5 settingsW stC2).1.currentStatus.isActive = true :=
  ⟨rfl, rfl⟩

/-- C2 (amended): `startStream` is rejected with NoDestinations only when the
destination list itself is empty — in that case no platform start is attempted
and `isActive` remains false; when destinations exist but every one is
disabled, the call instead completes without error and leaves `isActive =
true` with an empty platforms map. -/
theorem claim_C2_amended (env : Env) (now : Nat) (s : StreamSettings) (st : RelayState)
    (cfg : RelayConfig)
    (hAct : st.currentStatus.isActive = false)
    (hCfg : st.currentConfig = some cfg)
    (hdis : ∀ d ∈ st.destinations, d.enabled = false) :
    (st.destinations = [] →
      startStream env now s st =
        ({ st with currentStatus := { st.currentStatus with
             isActive := false, error := some noDestinationsMsg } }, .error noDestinationsMsg)) ∧
    (st.destinations ≠ [] →
      (startStream env now s st).2 = .ok () ∧
      (startStream env now s st).1.currentStatus =
        { isActive := true, startedAt := some now, platforms := {} }) := by
  constructor
  · intro hDst
    unfold startStream
    rw [hCfg]
    simp [hAct, hDst]
  · intro hNe
    rw [startStream_accepted env now s st cfg hAct hCfg hNe]
    have hfil : st.destinations.filter (fun d => d.enabled) = [] := by
      rw [List.filter_eq_nil_iff]
      intro a ha
      simp [hdis a ha]
    simp [hfil, startLoop_nil]

/-- C2 witness: the all-disabled branch of the amended claim at the concrete
disabled-destination state. -/
theorem claim_C2_witness :
    (startStream envW 5 settingsW stC2).2 = .ok () ∧
    (startStream envW 5 settingsW stC2).1.currentStatus =
      { isActive := true, startedAt := some 5, platforms := {} } :=
  (claim_C2_amended envW 5 settingsW stC2 cfgW rfl rfl (by decide)).2 (by decide)

/-- C5: starting from a registry holding no record with `d`'s identity,
`addDestination d` then `addDestination d2` (same identity) leaves the
registry equal to the old list with exactly one appended record, namely `d`
merged with `d2` (required fields from `d2`, optional fields from `d2` when
provided, else kept from `d`), and exactly one record with that identity
exists. -/
theorem claim_C5_upsert (st : RelayState) (d d2 : StreamDestination)
    (hp : d2.platform = d.platform) (ha : d2.accountId = d.accountId)
    (hfresh : ∀ e ∈ st.destinations, ¬(e.platform = d.platform ∧ e.accountId = d.accountId)) :
    (addDestination d2 (addDestination d st).1).1.destinations =
      st.destinations ++ [mergeDestination d d2] ∧
    ((addDestination d2 (addDestination d st).1).1.destinations.filter
      (fun e => decide (e.platform = d.platform ∧ e.accountId = d.accountId))).length = 1 := by
  have h1 : (addDestination d st).1.destinations = st.destinations ++ [d] := by
    show upsertDest st.destinations d = _
    exact upsertDest_fresh st.destinations d hfresh
  have hfresh2 : ∀ e ∈ st.destinations,
      ¬(e.platform = d2.platform ∧ e.accountId = d2.accountId) := by
    intro e he
    rw [hp, ha]
    exact hfresh e he
  have h2 : (addDestination d2 (addDestination d st).1).1.destinations =
      st.destinations ++ [mergeDestination d d2] := by
    show upsertDest (addDestination d st).1.destinations d2 = _
    rw [h1]
    exact upsertDest_found st.destinations d d2 hfresh2 hp.symm ha.symm
  refine ⟨h2, ?_⟩
  rw [h2, List.filter_append]
  have hnil : st.destinations.filter
      (fun e => decide (e.platform = d.platform ∧ e.accountId = d.accountId)) = [] := by
    rw [List.filter_eq_nil_iff]
    intro a haa
    simpa using hfresh a haa
  have hm1 : (mergeDestination d d2).platform = d.platform := by
    simpa [mergeDestination] using hp
  have hm2 : (mergeDestination d d2).accountId = d.accountId := by
    simpa [mergeDestination] using ha
  rw [hnil]
  simp [List.filter_cons, hm1, hm2]

/-- C5 witness: adding a keyed destination then a disabled re-add of the same
identity yields one merged record (latest `enabled` wins, the omitted
`streamKey` survives). -/
theorem claim_C5_witness :
    (addDestination dYtOff (addDestination dYtK ({} : RelayState)).1).1.destinations =
      ({} : RelayState).destinations ++ [mergeDestination dYtK dYtOff] ∧
    ((addDestination dYtOff (addDestination dYtK ({} : RelayState)).1).1.destinations.filter
      (fun e => decide (e.platform = dYtK.platform ∧ e.accountId = dYtK.accountId))).length = 1 :=
  claim_C5_upsert {} dYtK dYtOff rfl rfl (by simp)

/-- C1: an accepted start over two enabled destinations on different
platforms, where destination `d1`'s remote sequence succeeds and `d2`'s fails
with a non-empty message, is processed sequentially in registry order
(either order of the two): the call completes without error, `isActive`
is true, `d1`'s platform slot holds its live entry (`isStreaming = true`) and
`d2`'s platform slot holds `{isStreaming := false, error := msg}` — the
failure neither aborts the other destination's attempt nor fails the call. -/
theorem claim_C1_partial_failure (env : Env) (now : Nat) (s : StreamSettings)
    (cfg : RelayConfig) (st : RelayState) (d1 d2 : StreamDestination) (msg : String)
    (hAct : st.currentStatus.isActive = false)
    (hCfg : st.currentConfig = some cfg)
    (hDst : st.destinations = [d1, d2] ∨ st.destinations = [d2, d1])
    (h1e : d1.enabled = true) (h2e : d2.enabled = true)
    (hne : d1.platform ≠ d2.platform)
    (hok : (destEntry env (some cfg) now s d1).2 = .ok ())
    (herr : (destEntry env (some cfg) now s d2).2 = .error msg)
    (hmsg : msg ≠ "") :
    (startStream env now s st).2 = .ok () ∧
    (startStream env now s st).1.currentStatus.isActive = true ∧
    (startStream env now s st).1.currentStatus.platforms.get d1.platform =
      some (destEntry env (some cfg) now s d1).1 ∧
    (destEntry env (some cfg) now s d1).1.isStreaming = true ∧
    (startStream env now s st).1.currentStatus.platforms.get d2.platform =
      some { isStreaming := false, error := some msg } := by
  have hNe : st.destinations ≠ [] := by
    rcases hDst with h | h <;> simp [h]
  rcases hDst with h | h
  · rw [startStream_accepted env now s st cfg hAct hCfg hNe, hCfg, h]
    rw [show ([d1, d2].filter (fun d => d.enabled)) = [d1, d2] from by simp [h1e, h2e]]
    rw [startLoop_cons, startLoop_cons, startLoop_nil, startLoopStep_eq, startLoopStep_eq]
    dsimp only
    refine ⟨rfl, rfl, ?_, destEntry_of_ok _ _ _ _ _ hok, ?_⟩
    · rw [PlatformsMap.get_set_ne _ d2.platform d1.platform _ (Ne.symm hne),
        PlatformsMap.get_set_same]
    · rw [PlatformsMap.get_set_same, destEntry_of_error _ _ _ _ _ _ herr]
  · rw [startStream_accepted env now s st cfg hAct hCfg hNe, hCfg, h]
    rw [show ([d2, d1].filter (fun d => d.enabled)) = [d2, d1] from by simp [h1e, h2e]]
    rw [startLoop_cons, startLoop_cons, startLoop_nil, startLoopStep_eq, startLoopStep_eq]
    dsimp only
    refine ⟨rfl, rfl, ?_, destEntry_of_ok _ _ _ _ _ hok, ?_⟩
    · rw [PlatformsMap.get_set_same]
    · rw [PlatformsMap.get_set_ne _ d1.platform d2.platform _ hne,
        PlatformsMap.get_set_same, destEntry_of_error _ _ _ _ _ _ herr]

/-- C1 witness: LinkedIn (registry-first) fails, YouTube still starts; the
call succeeds with a live YouTube slot and a failed LinkedIn slot. -/
theorem claim_C1_witness :
    (startStream envW 5 settingsW stC1).2 = .ok () ∧
    (startStream envW 5 settingsW stC1).1.currentStatus.isActive = true ∧
    (startStream envW 5 settingsW stC1).1.currentStatus.platforms.get dYt.platform =
      some (destEntry envW (some cfgW) 5 settingsW dYt).1 ∧
    (destEntry envW (some cfgW) 5 settingsW dYt).1.isStreaming = true ∧
    (startStream envW 5 settingsW stC1).1.currentStatus.platforms.get dLi.platform =
      some { isStreaming := false, error := some "LinkedIn API rejected createLiveEvent" } :=
  claim_C1_partial_failure envW 5 settingsW cfgW stC1 dYt dLi
    "LinkedIn API rejected createLiveEvent" rfl rfl (Or.inr rfl) rfl rfl
    (by decide) rfl rfl (by decide)

/-- C9: the aggregate status keys platform entries by platform alone; a start
over two enabled destinations of the same platform (distinct accounts) writes
both outcomes into the one slot, so the later-processed destination's entry is
what remains under that platform for both destinations — per-account outcomes
are not independently observable. -/
theorem claim_C9_platform_slot_overwrite (env : Env) (now : Nat) (s : StreamSettings)
    (cfg : RelayConfig) (st : RelayState) (d1 d2 : StreamDestination)
    (hAct : st.currentStatus.isActive = false)
    (hCfg : st.currentConfig = some cfg)
    (hDst : st.destinations = [d1, d2])
    (h1e : d1.enabled = true) (h2e : d2.enabled = true)
    (hsame : d1.platform = d2.platform)
    (hacc : d1.accountId ≠ d2.accountId) :
    (startStream env now s st).2 = .ok () ∧
    (startStream env now s st).1.currentStatus.platforms.get d1.platform =
      some (destEntry env (some cfg) now s d2).1 ∧
    (startStream env now s st).1.currentStatus.platforms.get d2.platform =
      some (destEntry env (some cfg) now s d2).1 := by
  have hNe : st.destinations ≠ [] := by simp [hDst]
  rw [startStream_accepted env now s st cfg hAct hCfg hNe, hCfg, hDst]
  rw [show ([d1, d2].filter (fun d => d.enabled)) = [d1, d2] from by simp [h1e, h2e]]
  rw [startLoop_cons, startLoop_cons, startLoop_nil, startLoopStep_eq, startLoopStep_eq]
  dsimp only
  refine ⟨rfl, ?_, ?_⟩
  · rw [hsame, PlatformsMap.set_set_same, PlatformsMap.get_set_same]
  · rw [hsame, PlatformsMap.set_set_same, PlatformsMap.get_set_same]

/-- C9 witness: two YouTube accounts, the first succeeding and the second
failing; the single YouTube slot ends up holding the second's failure entry. -/
theorem claim_C9_witness :
    (startStream envMixed 5 settingsW stC9).2 = .ok () ∧
    (startStream envMixed 5 settingsW stC9).1.currentStatus.platforms.get dYt.platform =
      some (destEntry envMixed (some cfgW) 5 settingsW dYt2).1 ∧
    (startStream envMixed 5 settingsW stC9).1.currentStatus.platforms.get dYt2.platform =
      some (destEntry envMixed (some cfgW) 5 settingsW dYt2).1 :=
  claim_C9_platform_slot_overwrite envMixed 5 settingsW cfgW stC9 dYt dYt2
    rfl rfl rfl rfl rfl rfl (by decide)

/-- `stopPlatformStream` mutates only the platform slots of the status: it
preserves `startedAt`, `duration` and `isActive`. -/
theorem stopPlatformStream_preserves (env : Env) (p : StreamPlatform)
    (a : Option String) (st : RelayState) :
    (stopPlatformStream env p a st).1.currentStatus.startedAt = st.currentStatus.startedAt ∧
    (stopPlatformStream env p a st).1.currentStatus.duration = st.currentStatus.duration ∧
    (stopPlatformStream env p a st).1.currentStatus.isActive = st.currentStatus.isActive := by
  unfold stopPlatformStream
  cases p <;> dsimp only <;> (repeat' split) <;> simp

/-- `stopPhase` likewise preserves `startedAt`. -/
theorem stopPhase_startedAt (env : Env) (p : StreamPlatform) (st : RelayState) :
    (stopPhase env p st).1.currentStatus.startedAt = st.currentStatus.startedAt := by
  unfold stopPhase
  split
  · exact (stopPlatformStream_preserves env p none st).1
  · rfl

/-- C3 counterexample: with both platforms streaming and YouTube's
`endBroadcast` rejecting, `stopStream` rejects with that error, LinkedIn is
never stopped (its slot still shows `isStreaming = true`), the aggregate stays
`isActive = true`, no duration is computed and nothing is persisted —
contradicting the claim that each platform's stop failure is caught and the
aggregate always transitions to inactive. -/
theorem claim_C3_counterexample :
    (stopStream envYtStopFail 61000 stActive).2 = .error "network down" ∧
    (stopStream envYtStopFail 61000 stActive).1.currentStatus.isActive = true ∧
    ((stopStream envYtStopFail 61000 stActive).1.currentStatus.platforms.get .linkedin).map
      (fun p => p.isStreaming) = some true ∧
    (stopStream envYtStopFail 61000 stActive).1.currentStatus.duration = none ∧
    (stopStream envYtStopFail 61000 stActive).1.store.stream_status = none :=
  ⟨rfl, rfl, rfl, rfl, rfl⟩

/-- C3 (amended): `stopStream` while active stops YouTube first, then
LinkedIn, each only when marked streaming. A rejection from either
per-platform stop propagates: the call rejects with that error, later
platforms are not stopped and the aggregate never transitions. Only when both
phases resolve does the call set `isActive = false`, compute
`duration = Math.floor((now - startedAt) / 1000)` (non-negative whenever the
clock has not gone backwards) and persist the result. -/
theorem claim_C3_amended (env : Env) (now : Nat) (st : RelayState)
    (hAct : st.currentStatus.isActive = true) :
    (∀ st1 e, stopPhase env .youtube st = (st1, .error e) →
      stopStream env now st = (st1, .error e)) ∧
    (∀ st1 st2 e, stopPhase env .youtube st = (st1, .ok ()) →
      stopPhase env .linkedin st1 = (st2, .error e) →
      stopStream env now st = (st2, .error e)) ∧
    (∀ st1 st2 t0, stopPhase env .youtube st = (st1, .ok ()) →
      stopPhase env .linkedin st1 = (st2, .ok ()) →
      st.currentStatus.startedAt = some t0 →
      stopStream env now st =
        ({ st2 with
            currentStatus := { st2.currentStatus with
              isActive := false,
              duration := some (Int.fdiv ((now : Int) - (t0 : Int)) 1000) },
            streamProcessId := none,
            store := { st2.store with
              stream_status := some { st2.currentStatus with
                isActive := false,
                duration := some (Int.fdiv ((now : Int) - (t0 : Int)) 1000) } } },
         .ok ()) ∧
      (t0 ≤ now → 0 ≤ Int.fdiv ((now : Int) - (t0 : Int)) 1000)) := by
  refine ⟨?_, ?_, ?_⟩
  · intro st1 e h1
    unfold stopStream
    simp [hAct, h1]
  · intro st1 st2 e h1 h2
    unfold stopStream
    simp [hAct, h1, h2]
  · intro st1 st2 t0 h1 h2 ht
    have hs1 : st1.currentStatus.startedAt = st.currentStatus.startedAt := by
      have h := stopPhase_startedAt env .youtube st
      rw [h1] at h
      exact h
    have hs2 : st2.currentStatus.startedAt = st1.currentStatus.startedAt := by
      have h := stopPhase_startedAt env .linkedin st1
      rw [h2] at h
      exact h
    have hst2 : st2.currentStatus.startedAt = some t0 := by rw [hs2, hs1, ht]
    constructor
    · unfold stopStream
      simp [hAct, h1, h2, hst2]
    · intro hle
      apply Int.fdiv_nonneg
      · omega
      · norm_num

/-- C3 witness: both platforms stop cleanly; the aggregate goes inactive with
`duration = 60` seconds of a 60000 ms session, persisted. -/
theorem claim_C3_witness :
    stopStream envAllOk 61000 stActive =
      ({ stActiveYL with
          currentStatus := { stActiveYL.currentStatus with
            isActive := false,
            duration := some (Int.fdiv (((61000 : Nat) : Int) - ((1000 : Nat) : Int)) 1000) },
          streamProcessId := none,
          store := { stActiveYL.store with
            stream_status := some { stActiveYL.currentStatus with
              isActive := false,
              duration := some (Int.fdiv (((61000 : Nat) : Int) - ((1000 : Nat) : Int)) 1000) } } },
       .ok ()) ∧
    ((1000 : Nat) ≤ 61000 → 0 ≤ Int.fdiv (((61000 : Nat) : Int) - ((1000 : Nat) : Int)) 1000) :=
  (claim_C3_amended envAllOk 61000 stActive rfl).2.2 stActiveY stActiveYL 1000 rfl rfl rfl

/-- C6: `removeDestination` of the actively streaming YouTube destination
removes it from the registry but then REJECTS with "YouTube destination not
found for account acc1" (the stop-side lookup runs over the already filtered
registry), leaving the YouTube status entry still `isStreaming = true` — the
claimed downgrade-and-return-without-error never happens. -/
theorem claim_C6_remove_streaming_rejects :
    (removeDestination envAllOk .youtube "acc1" stActive).2 =
      .error "YouTube destination not found for account acc1" ∧
    ((removeDestination envAllOk .youtube "acc1" stActive).1.currentStatus.platforms.get
      .youtube).map (fun p => p.isStreaming) = some true ∧
    (removeDestination envAllOk .youtube "acc1" stActive).1.destinations = [dLi] ∧
    (removeDestination envAllOk .youtube "acc1" stActive).1.currentStatus.isActive = true :=
  ⟨rfl, rfl, rfl, rfl⟩

/-- C7: `saveAccount` clears only the account's own cache key and the
`["accounts"]` aggregate key, not the `["accounts", platform]` list key, so a
`getAccountsByPlatform` read within the TTL after the write still returns the
stale pre-write list (here the old token) even though the KV store, a
`getAccount` read and a `getAllAccounts` read all see the new record. -/
theorem claim_C7_stale_platform_cache :
    (getAccountsByPlatform (saveAccount (getAccountsByPlatform smC7 .youtube 1000).2 accA2)
      .youtube 2000).1 = [accA] ∧
    accA.accessToken ≠ accA2.accessToken ∧
    lookupKey (saveAccount (getAccountsByPlatform smC7 .youtube 1000).2 accA2).kv
      (accountKey accA2) = some accA2 ∧
    (getAccount (saveAccount (getAccountsByPlatform smC7 .youtube 1000).2 accA2)
      .youtube "a1" 2000).1 = some accA2 ∧
    (getAllAccounts (saveAccount (getAccountsByPlatform smC7 .youtube 1000).2 accA2) 2000).1 =
      [accA2] :=
  ⟨rfl, by decide, rfl, rfl, rfl⟩

end LiveStream
